import Mathlib

/-!
Verification of the meteorological dashboard core
(geo projection, color-scale domain computation, and the Zustand data store).

JavaScript numbers are modelled as exact rationals (ℚ); the JS null/NaN
"missing" sentinel for a grid cell is modelled as `Option ℚ` with `none`
covering null, undefined and NaN (the code guards every numeric read with
`v !== null && !isNaN(v)`, which collapses all three to "missing").
JS objects keyed by variable name are modelled as association lists over
`String`; out-of-range array indexing (which yields `undefined` in JS)
is modelled by `Option`-valued lookup.
-/

namespace Dashboard

/-! ## Geo utilities (src/dashboard/src/utils/geoUtils.js) -/

/-- Map bounds `{ minLat, maxLat, minLon, maxLon }`. -/
structure Bounds where
  minLat : ℚ
  maxLat : ℚ
  minLon : ℚ
  maxLon : ℚ
deriving DecidableEq, Repr

/-- Canvas dimensions `{ width, height }`. -/
structure CanvasSize where
  width : ℚ
  height : ℚ
deriving DecidableEq, Repr

/-- Padding `{ top, bottom, left, right }`. -/
structure Padding where
  top : ℚ
  bottom : ℚ
  left : ℚ
  right : ℚ
deriving DecidableEq, Repr

/-- Source `latLonToPixel(lat, lon, bounds, canvasSize, padding)`: equirectangular
forward projection; normalizes lon and lat into [0,1] over the bounds and
maps into the padded drawing area, flipping the Y axis (canvas origin is
top-left). Returns `[x, y]`. -/
def latLonToPixel (lat lon : ℚ) (bounds : Bounds) (canvasSize : CanvasSize)
    (padding : Padding) : ℚ × ℚ :=
  let drawWidth := canvasSize.width - padding.left - padding.right
  let drawHeight := canvasSize.height - padding.top - padding.bottom
  let normalizedLon := (lon - bounds.minLon) / (bounds.maxLon - bounds.minLon)
  let normalizedLat := (lat - bounds.minLat) / (bounds.maxLat - bounds.minLat)
  (padding.left + normalizedLon * drawWidth,
   padding.top + (1 - normalizedLat) * drawHeight)

/-- Source `pixelToLatLon(x, y, bounds, canvasSize, padding)`: inverse projection;
returns `[lat, lon]`. -/
def pixelToLatLon (x y : ℚ) (bounds : Bounds) (canvasSize : CanvasSize)
    (padding : Padding) : ℚ × ℚ :=
  let drawWidth := canvasSize.width - padding.left - padding.right
  let drawHeight := canvasSize.height - padding.top - padding.bottom
  let normalizedLon := (x - padding.left) / drawWidth
  let normalizedLat := 1 - (y - padding.top) / drawHeight
  (bounds.minLat + normalizedLat * (bounds.maxLat - bounds.minLat),
   bounds.minLon + normalizedLon * (bounds.maxLon - bounds.minLon))

/-- The loop of `findNearestIndex`: carries the running `minDist`
(`none` models the initial `Infinity`), the running `nearestIdx`, and the
absolute position `i` of the head of the remaining list. The update is
strict (`dist < minDist`), so ties keep the earliest index. -/
def findNearestIndexAux (target : ℚ) : List ℚ → ℕ → Option ℚ → ℕ → ℕ
  | [], _, _, best => best
  | c :: rest, i, minDist, best =>
    let dist := |c - target|
    match minDist with
    | none => findNearestIndexAux target rest (i + 1) (some dist) i
    | some m =>
      if dist < m then findNearestIndexAux target rest (i + 1) (some dist) i
      else findNearestIndexAux target rest (i + 1) (some m) best

/-- Source `findNearestIndex(coords, target)`: linear scan minimizing
`Math.abs(coords[i] - target)`, starting from `minDist = Infinity`,
`nearestIdx = 0`. -/
def findNearestIndex (coords : List ℚ) (target : ℚ) : ℕ :=
  findNearestIndexAux target coords 0 none 0

/-- Source `Math.min(...xs)` over a nonempty spread. (JS yields `Infinity` on an
empty spread; that case is never reached by the call sites modelled here
and is given the placeholder 0.) -/
def listMinD : List ℚ → ℚ
  | [] => 0
  | c :: rest => rest.foldl min c

/-- Source `Math.max(...xs)` over a nonempty spread (placeholder 0 when empty,
as for `listMinD`). -/
def listMaxD : List ℚ → ℚ
  | [] => 0
  | c :: rest => rest.foldl max c

/-- Source `calculateBounds(lats, lons)`: min/max reduction over each axis. -/
def calculateBounds (lats lons : List ℚ) : Bounds :=
  { minLat := listMinD lats
    maxLat := listMaxD lats
    minLon := listMinD lons
    maxLon := listMaxD lons }

/-! ## Renderer and click-handler projection parameters
(src/dashboard/src/utils/mapRenderer.js and the MapCanvas component) -/

/-- The padding `renderMap` passes to `latLonToPixel` when drawing grid
cells (mapRenderer.js line 41). -/
def renderPadding : Padding := { top := 10, bottom := 10, left := 10, right := 10 }

/-- The padding the MapCanvas `handleClick` passes to `pixelToLatLon`
(MapCanvas line 102). -/
def clickPadding : Padding := { top := 20, bottom := 40, left := 40, right := 20 }

/-- The pixel where `renderMap` places grid sample `(lats[i], lons[j])`:
forward projection with the bounds of the renderer (computed from the metadata
coordinate arrays), the canvas size, and `renderPadding`. -/
def renderSamplePixel (lats lons : List ℚ) (canvasSize : CanvasSize)
    (i j : ℕ) : ℚ × ℚ :=
  latLonToPixel ((lats.get? i).getD 0) ((lons.get? j).getD 0)
    (calculateBounds lats lons) canvasSize renderPadding

/-- The MapCanvas `handleClick` pipeline: recompute bounds from the
metadata coordinate arrays, invert the click pixel with `clickPadding`,
then `findNearestIndex` on each axis; returns `(latIdx, lonIdx)`. -/
def clickIndices (x y : ℚ) (lats lons : List ℚ) (canvasSize : CanvasSize) :
    ℕ × ℕ :=
  let bounds := calculateBounds lats lons
  let ll := pixelToLatLon x y bounds canvasSize clickPadding
  (findNearestIndex lats ll.1, findNearestIndex lons ll.2)

/-! ## Color scale domain (src/dashboard/src/utils/colorMaps.js)

Only the numeric domain computation of `getColorScale` is modelled; the
chroma-js color interpolation itself is outside the numeric core. -/

/-- A value range `{ min, max }`. -/
structure RangeQ where
  min : ℚ
  max : ℚ
deriving DecidableEq, Repr

/-- The dynamic symmetric domain `getColorScale` builds for the
`difference` data type: `absMax = Math.max(Math.abs(range.min),
Math.abs(range.max))`, `step = absMax / 4`, domain
`[-absMax, -step*3, -step*2, -step, 0, step, step*2, step*3, absMax]`
(one breakpoint per color of the 9-color diverging ramp). -/
def differenceDomain (range : RangeQ) : List ℚ :=
  let absMax := max |range.min| |range.max|
  let step := absMax / 4
  [-absMax, -step * 3, -step * 2, -step, 0, step, step * 2, step * 3, absMax]

/-! ## Data store (src/dashboard/src/store/dataStore.js) -/

/-- One grid cell: `none` models the null/NaN/undefined missing sentinel. -/
abbrev Cell := Option ℚ

/-- A 2-D grid `[lat][lon]` of cells. -/
abbrev Grid := List (List Cell)

/-- Per-variable static metadata bounds (`metadata.variables[v]`), as read
by `getCurrentRange` via `varMeta?.min || 0` / `varMeta?.max || 100`.
(For a rational value the JS `||` fallback only fires when the property is
absent, except that `0 || d = d` returns `d = 0` for min — the same
value — so plain fields are faithful.) -/
structure VarMeta where
  min : ℚ
  max : ℚ
deriving DecidableEq, Repr

/-- Source `metadata`: coordinate arrays, time axis, per-variable bounds. -/
structure Metadata where
  lat : List ℚ
  lon : List ℚ
  times : List String
  variableTable : List (String × VarMeta)
deriving DecidableEq, Repr

/-- Source `meteorologicalData`: metadata plus the two sources, each a map from
variable name to a per-day list of grids. -/
structure Dataset where
  metadata : Metadata
  obs : List (String × List Grid)
  forecast : List (String × List Grid)
deriving DecidableEq, Repr

/-- Boundary GeoJSON is only carried by the store, never inspected by the
modelled selectors: polygons → rings → `[lon, lat]` positions. -/
abbrev Boundary := List (List (List (ℚ × ℚ)))

/-- A selected point `{ lat, lon, latIdx, lonIdx }`. -/
structure SelectedPoint where
  lat : ℚ
  lon : ℚ
  latIdx : ℕ
  lonIdx : ℕ
deriving DecidableEq, Repr

/-- The Zustand store state. -/
structure StoreState where
  meteorologicalData : Option Dataset
  australiaBoundary : Option Boundary
  isLoading : Bool
  error : Option String
  dataType : String
  variableName : String
  day : Int
  selectedPoint : Option SelectedPoint
deriving DecidableEq, Repr

/-- The initial state of the store (dataStore.js lines 10–19). -/
def initialState : StoreState :=
  { meteorologicalData := none
    australiaBoundary := none
    isLoading := true
    error := none
    dataType := "obs"
    variableName := "tmax"
    day := 0
    selectedPoint := none }

/-- JS object property read `o[k]` on a string-keyed record. -/
def assocLookup {β : Type} (k : String) : List (String × β) → Option β
  | [] => none
  | (k', v) :: rest => if k = k' then some v else assocLookup k rest

/-- JS array indexing `arr[i]` for a possibly negative index
(`undefined`, i.e. `none`, when out of range). -/
def jsIndex {α : Type} (l : List α) (i : Int) : Option α :=
  if 0 ≤ i then l.get? i.toNat else none

/-- Read `g[i][j]` on a grid: `none` when the row or cell is out of range
or the cell holds the missing sentinel. -/
def gridCell (g : Grid) (i j : ℕ) : Cell :=
  ((g.get? i).bind fun row => row.get? j).join

/-- Read `v[day][i][j]` on a per-day list of grids. -/
def dayCell (v : List Grid) (day i j : ℕ) : Cell :=
  ((v.get? day).bind fun g => (g.get? i).bind fun row => row.get? j).join

/-- Source `calculateDifference(obsData, fcData)` (dataStore.js lines 235–254):
elementwise `obs - fc`, null when either operand is missing; iterates the
dimensions of `obsData`, reading `fcData[i][j]` (possibly `undefined`). -/
def calculateDifference (obsData fcData : Grid) : Grid :=
  obsData.mapIdx fun i row =>
    row.mapIdx fun j cell =>
      match cell, gridCell fcData i j with
      | some o, some f => some (o - f)
      | _, _ => none

/-- Source `getCurrentData()` (dataStore.js lines 99–127): look up
`obs[variable]?.[day]` and `forecast[variable]?.[day]`; if either is
missing return null; otherwise return the grid selected by `dataType`
(the elementwise difference for `"difference"`, null for any other
string). -/
def getCurrentData (s : StoreState) : Option Grid :=
  match s.meteorologicalData with
  | none => none
  | some md =>
    let obsData := (assocLookup s.variableName md.obs).bind fun v => jsIndex v s.day
    let fcData := (assocLookup s.variableName md.forecast).bind fun v => jsIndex v s.day
    match obsData, fcData with
    | some o, some f =>
      if s.dataType = "obs" then some o
      else if s.dataType = "forecast" then some f
      else if s.dataType = "difference" then some (calculateDifference o f)
      else none
    | _, _ => none

/-- The non-missing values of a grid, in the row-major order of the
`getCurrentRange` scan. -/
def gridValues (g : Grid) : List ℚ :=
  (g.map fun row => row.filterMap id).flatten

/-- Running minimum of a value list (the `if (val < min) min = val` scan
seeded with `Infinity`, modelled as `none`). -/
def listMin? (l : List ℚ) : Option ℚ :=
  l.foldl (fun acc v => match acc with
    | none => some v
    | some m => some (min m v)) none

/-- Running maximum of a value list (seeded with `-Infinity`). -/
def listMax? (l : List ℚ) : Option ℚ :=
  l.foldl (fun acc v => match acc with
    | none => some v
    | some m => some (max m v)) none

/-- Source `getCurrentRange()` (dataStore.js lines 133–171): `{min: 0, max: 1}`
without a dataset; for `"difference"`, `{min: -10, max: 10}` when the
current grid is missing, otherwise the actual min/max over non-missing
cells padded by 10% of the span and rounded outward
(`Math.floor` / `Math.ceil`); otherwise the static per-variable bounds
with fallbacks 0 and 100. An all-missing difference grid leaves the JS
scan at `Infinity`/`-Infinity` and produces `NaN` bounds, which ℚ cannot
represent; that branch carries the placeholder `{min: 0, max: 0}` and is
outside every property proved below. -/
def getCurrentRange (s : StoreState) : RangeQ :=
  match s.meteorologicalData with
  | none => { min := 0, max := 1 }
  | some md =>
    if s.dataType = "difference" then
      match getCurrentData s with
      | none => { min := -10, max := 10 }
      | some data =>
        match listMin? (gridValues data), listMax? (gridValues data) with
        | some m, some M =>
          let padding := (M - m) * (1 / 10)
          { min := (⌊m - padding⌋ : ℤ), max := (⌈M + padding⌉ : ℤ) }
        | _, _ => { min := 0, max := 0 }
    else
      match assocLookup s.variableName md.metadata.variableTable with
      | some vm => { min := vm.min, max := vm.max }
      | none => { min := 0, max := 100 }

/-- The object `getTimeSeriesData` returns. -/
structure TimeSeries where
  days : List String
  lat : ℚ
  lon : ℚ
  obs : List Cell
  forecast : List Cell
  difference : List Cell
deriving DecidableEq, Repr

/-- Source `getTimeSeriesData()` (dataStore.js lines 177–218): null without a
selected point or dataset, or when either source lacks the selected
variable; otherwise, for every `dayIdx` in `0..times.length-1`, reads
`obsVar[dayIdx]?.[latIdx]?.[lonIdx]` and the forecast counterpart, keeps
the scalar when it is a non-null number (else null), and emits the
difference only when both scalars are non-null numbers. -/
def getTimeSeriesData (s : StoreState) : Option TimeSeries :=
  match s.selectedPoint, s.meteorologicalData with
  | some pt, some md =>
    match assocLookup s.variableName md.obs, assocLookup s.variableName md.forecast with
    | some obsVar, some fcVar =>
      let T := md.metadata.times.length
      let obsSeries := (List.range T).map fun dayIdx =>
        dayCell obsVar dayIdx pt.latIdx pt.lonIdx
      let fcSeries := (List.range T).map fun dayIdx =>
        dayCell fcVar dayIdx pt.latIdx pt.lonIdx
      let diffSeries := (List.range T).map fun dayIdx =>
        match dayCell obsVar dayIdx pt.latIdx pt.lonIdx,
              dayCell fcVar dayIdx pt.latIdx pt.lonIdx with
        | some o, some f => some (o - f)
        | _, _ => none
      some { days := md.metadata.times
             lat := pt.lat
             lon := pt.lon
             obs := obsSeries
             forecast := fcSeries
             difference := diffSeries }
    | _, _ => none
  | _, _ => none

/-! ### Store mutators (dataStore.js lines 61–91) and the two `set` calls
of `loadData` (lines 27 and 41–46 / 51–54). -/

/-- Source `setDataType(dataType)`. -/
def setDataType (v : String) (s : StoreState) : StoreState :=
  { s with dataType := v }

/-- Source `setVariable(variable)`. -/
def setVariable (v : String) (s : StoreState) : StoreState :=
  { s with variableName := v }

/-- Source `setDay(day)`. -/
def setDay (d : Int) (s : StoreState) : StoreState :=
  { s with day := d }

/-- Source `setSelectedPoint(point)`. -/
def setSelectedPoint (p : Option SelectedPoint) (s : StoreState) : StoreState :=
  { s with selectedPoint := p }

/-- Source `clearSelectedPoint()`. -/
def clearSelectedPoint (s : StoreState) : StoreState :=
  { s with selectedPoint := none }

/-- The `set` issued when `loadData` starts. -/
def loadDataStart (s : StoreState) : StoreState :=
  { s with isLoading := true, error := none }

/-- The `set` issued when `loadData` succeeds. -/
def loadDataSuccess (d : Dataset) (b : Boundary) (s : StoreState) : StoreState :=
  { s with meteorologicalData := some d
           australiaBoundary := some b
           isLoading := false
           error := none }

/-- The `set` issued when `loadData` fails. -/
def loadDataFailure (msg : String) (s : StoreState) : StoreState :=
  { s with isLoading := false, error := some msg }

/-! ## Shared concrete inputs for witnesses -/

/-- A concrete square bounds object, 0–30 on both axes. -/
def bounds0 : Bounds := { minLat := 0, maxLat := 30, minLon := 0, maxLon := 30 }

/-- A concrete 100×100 canvas. -/
def cs0 : CanvasSize := { width := 100, height := 100 }

/-! ## Theorems -/

/-- C2: projection round-trip. For every bounds with `maxLat > minLat` and
`maxLon > minLon` and every canvas size and padding with a strictly
positive drawing area, `pixelToLatLon` after `latLonToPixel` (same bounds,
size and padding) returns the original `(lat, lon)` exactly over rational
arithmetic, and `latLonToPixel` after `pixelToLatLon` returns the original
pixel: the inverse projection is the exact algebraic inverse of the
forward one. -/
theorem projection_round_trip
    (bounds : Bounds) (canvasSize : CanvasSize) (padding : Padding)
    (hLat : bounds.minLat < bounds.maxLat)
    (hLon : bounds.minLon < bounds.maxLon)
    (hW : 0 < canvasSize.width - padding.left - padding.right)
    (hH : 0 < canvasSize.height - padding.top - padding.bottom) :
    (∀ lat lon : ℚ,
      pixelToLatLon (latLonToPixel lat lon bounds canvasSize padding).1
        (latLonToPixel lat lon bounds canvasSize padding).2
        bounds canvasSize padding = (lat, lon)) ∧
    (∀ x y : ℚ,
      latLonToPixel (pixelToLatLon x y bounds canvasSize padding).1
        (pixelToLatLon x y bounds canvasSize padding).2
        bounds canvasSize padding = (x, y)) := by
  have hLat' : bounds.maxLat - bounds.minLat ≠ 0 := sub_ne_zero.mpr (ne_of_gt hLat)
  have hLon' : bounds.maxLon - bounds.minLon ≠ 0 := sub_ne_zero.mpr (ne_of_gt hLon)
  have hW' : canvasSize.width - padding.left - padding.right ≠ 0 := ne_of_gt hW
  have hH' : canvasSize.height - padding.top - padding.bottom ≠ 0 := ne_of_gt hH
  constructor
  · intro lat lon
    simp only [latLonToPixel, pixelToLatLon, Prod.mk.injEq]
    constructor <;> (field_simp; ring)
  · intro x y
    simp only [latLonToPixel, pixelToLatLon, Prod.mk.injEq]
    constructor <;> (field_simp; ring)

/-- Witness for C2: the round trip at bounds 0–30, a 100×100 canvas and
the default padding. -/
theorem projection_round_trip_witness :
    (bounds0.minLat < bounds0.maxLat ∧ bounds0.minLon < bounds0.maxLon ∧
     0 < cs0.width - clickPadding.left - clickPadding.right ∧
     0 < cs0.height - clickPadding.top - clickPadding.bottom) ∧
    ((∀ lat lon : ℚ,
      pixelToLatLon (latLonToPixel lat lon bounds0 cs0 clickPadding).1
        (latLonToPixel lat lon bounds0 cs0 clickPadding).2
        bounds0 cs0 clickPadding = (lat, lon)) ∧
    (∀ x y : ℚ,
      latLonToPixel (pixelToLatLon x y bounds0 cs0 clickPadding).1
        (pixelToLatLon x y bounds0 cs0 clickPadding).2
        bounds0 cs0 clickPadding = (x, y))) :=
  ⟨⟨by norm_num [bounds0], by norm_num [bounds0],
    by norm_num [cs0, clickPadding], by norm_num [cs0, clickPadding]⟩,
   projection_round_trip bounds0 cs0 clickPadding
     (by norm_num [bounds0]) (by norm_num [bounds0])
     (by norm_num [cs0, clickPadding]) (by norm_num [cs0, clickPadding])⟩

/-- C3 counterexample: the diverging domain the code builds for range
`{-3, 9}` has 9 breakpoints, not 8 as the claim counts them. -/
theorem differenceDomain_not_eight :
    ¬ (differenceDomain { min := -3, max := 9 }).length = 8 := by
  simp [differenceDomain]

/-- C3 (amended): for every difference range, the color-scale construction
computes `absMax = max(|min|, |max|)` and builds 9 breakpoints (8 equal
steps) evenly spaced across `[-absMax, absMax]`, zero sitting exactly at
the midpoint (index 4) of the list regardless of the sign skew; for range
`{-3, 9}` it yields absMax 9 and breakpoints
`[-9, -6.75, -4.5, -2.25, 0, 2.25, 4.5, 6.75, 9]`. -/
theorem differenceDomain_symmetric (range : RangeQ) :
    (differenceDomain range).length = 9 ∧
    (differenceDomain range).getD 0 0 = -(max |range.min| |range.max|) ∧
    (differenceDomain range).getD 8 0 = max |range.min| |range.max| ∧
    (differenceDomain range).getD 4 0 = 0 ∧
    (∀ k < 8, (differenceDomain range).getD (k + 1) 0
      - (differenceDomain range).getD k 0 = max |range.min| |range.max| / 4) ∧
    differenceDomain { min := -3, max := 9 } =
      [-9, -27/4, -9/2, -9/4, 0, 9/4, 9/2, 27/4, 9] := by
  refine ⟨by simp [differenceDomain], by simp [differenceDomain],
    by simp [differenceDomain], by simp [differenceDomain], ?_,
    by norm_num [differenceDomain]⟩
  intro k hk
  interval_cases k <;> (simp [differenceDomain]; try ring)

/-- C1 (code bug): hit-testing is not consistent with rendering. The
renderer projects grid samples with padding 10/10/10/10 while the click
handler inverts the click pixel with padding 20/40/40/20; on the concrete
4×4 coordinate grid 0,10,20,30 over a 100×100 canvas, sample `(i,j) =
(1,1)` is drawn at pixel `(110/3, 190/3)`, and the click pipeline at that
very pixel selects indices `(0, 0)`, not `(1, 1)`. -/
theorem render_click_hit_mismatch :
    renderPadding ≠ clickPadding ∧
    renderSamplePixel [0, 10, 20, 30] [0, 10, 20, 30] cs0 1 1 = (110/3, 190/3) ∧
    clickIndices (110/3) (190/3) [0, 10, 20, 30] [0, 10, 20, 30] cs0 = (0, 0) ∧
    clickIndices (110/3) (190/3) [0, 10, 20, 30] [0, 10, 20, 30] cs0 ≠ (1, 1) := by
  refine ⟨by norm_num [renderPadding, clickPadding, Padding.mk.injEq], ?_, ?_, ?_⟩
  · norm_num [renderSamplePixel, latLonToPixel, calculateBounds,
      listMinD, listMaxD, renderPadding, cs0]
  · norm_num [clickIndices, pixelToLatLon, calculateBounds, listMinD, listMaxD,
      clickPadding, cs0, findNearestIndex, findNearestIndexAux, abs]
  · norm_num [clickIndices, pixelToLatLon, calculateBounds, listMinD, listMaxD,
      clickPadding, cs0, findNearestIndex, findNearestIndexAux, abs]

/-- If every remaining distance is at least the running minimum `m`, the
scan keeps the running best index. -/
lemma findNearestIndexAux_no_better (target : ℚ) :
    ∀ (l : List ℚ) (i b : ℕ) (m : ℚ),
      (∀ k, k < l.length → m ≤ |l.getD k 0 - target|) →
      findNearestIndexAux target l i (some m) b = b := by
  intro l
  induction l with
  | nil => intro i b m _; rfl
  | cons c rest ih =>
    intro i b m h
    have h0 : m ≤ |c - target| := by simpa using h 0 (by simp)
    simp only [findNearestIndexAux, not_lt.mpr h0, if_false]
    exact ih (i + 1) b m fun k hk => by
      simpa using h (k + 1) (by simpa using Nat.succ_lt_succ hk)

/-- If some remaining distance beats the running minimum `m`, the scan
returns `i + r` for the earliest index `r` of the remaining list that
attains the least distance, and that distance beats `m`. -/
lemma findNearestIndexAux_better (target : ℚ) :
    ∀ (l : List ℚ) (i b : ℕ) (m : ℚ),
      (∃ k, k < l.length ∧ |l.getD k 0 - target| < m) →
      ∃ r, r < l.length ∧ findNearestIndexAux target l i (some m) b = i + r ∧
        |l.getD r 0 - target| < m ∧
        (∀ k, k < l.length → |l.getD r 0 - target| ≤ |l.getD k 0 - target|) ∧
        (∀ k, k < r → |l.getD r 0 - target| < |l.getD k 0 - target|) := by
  intro l
  induction l with
  | nil =>
    rintro i b m ⟨k, hk, -⟩
    exact absurd hk (by simp)
  | cons c rest ih =>
    intro i b m hex
    by_cases hd : |c - target| < m
    · by_cases hbetter :
        ∃ k, k < rest.length ∧ |rest.getD k 0 - target| < |c - target|
      · obtain ⟨r', hr', heq, hlt, hmin, hstrict⟩ :=
          ih (i + 1) i |c - target| hbetter
        refine ⟨r' + 1, by simpa using Nat.succ_lt_succ hr', ?_, ?_, ?_, ?_⟩
        · simp only [findNearestIndexAux, if_pos hd]
          rw [heq]; omega
        · simpa using hlt.trans hd
        · intro k hk
          match k with
          | 0 => simpa using (le_of_lt hlt)
          | k + 1 =>
            simpa using hmin k (by simpa using Nat.lt_of_succ_lt_succ hk)
        · intro k hk
          match k with
          | 0 => simpa using hlt
          | k + 1 => simpa using hstrict k (Nat.lt_of_succ_lt_succ hk)
      · push_neg at hbetter
        have heq := findNearestIndexAux_no_better target rest (i + 1) i
          |c - target| hbetter
        refine ⟨0, by simp, ?_, by simpa using hd, ?_, ?_⟩
        · simp only [findNearestIndexAux, if_pos hd]
          rw [heq]; omega
        · intro k hk
          match k with
          | 0 => simp
          | k + 1 =>
            simpa using hbetter k (by simpa using Nat.lt_of_succ_lt_succ hk)
        · intro k hk; exact absurd hk (Nat.not_lt_zero k)
    · have hd' : m ≤ |c - target| := not_lt.mp hd
      obtain ⟨k, hk, hklt⟩ := hex
      match k, hk, hklt with
      | 0, _, h0 =>
        exact absurd (by simpa using h0) (not_lt.mpr hd')
      | k + 1, hk, hklt =>
        have hex' : ∃ k, k < rest.length ∧ |rest.getD k 0 - target| < m :=
          ⟨k, by simpa using Nat.lt_of_succ_lt_succ hk, by simpa using hklt⟩
        obtain ⟨r', hr', heq, hlt, hmin, hstrict⟩ := ih (i + 1) b m hex'
        refine ⟨r' + 1, by simpa using Nat.succ_lt_succ hr', ?_, ?_, ?_, ?_⟩
        · simp only [findNearestIndexAux, if_neg hd]
          rw [heq]; omega
        · simpa using hlt
        · intro j hj
          match j with
          | 0 => simpa using le_of_lt (hlt.trans_le hd')
          | j + 1 =>
            simpa using hmin j (by simpa using Nat.lt_of_succ_lt_succ hj)
        · intro j hj
          match j with
          | 0 => simpa using hlt.trans_le hd'
          | j + 1 => simpa using hstrict j (Nat.lt_of_succ_lt_succ hj)

/-- C9: nearest-index lookup. For every non-empty coordinate list and
every target, `findNearestIndex` returns an in-range index whose absolute
distance to the target is minimal, and every smaller index has strictly
greater distance (ties resolve to the lowest index). -/
theorem findNearestIndex_correct (coords : List ℚ) (target : ℚ)
    (h : coords ≠ []) :
    findNearestIndex coords target < coords.length ∧
    (∀ k, k < coords.length →
      |coords.getD (findNearestIndex coords target) 0 - target|
        ≤ |coords.getD k 0 - target|) ∧
    (∀ k, k < findNearestIndex coords target →
      |coords.getD (findNearestIndex coords target) 0 - target|
        < |coords.getD k 0 - target|) := by
  match coords, h with
  | c :: rest, _ =>
    have hstart : findNearestIndex (c :: rest) target
        = findNearestIndexAux target rest 1 (some |c - target|) 0 := rfl
    by_cases hbetter :
      ∃ k, k < rest.length ∧ |rest.getD k 0 - target| < |c - target|
    · obtain ⟨r', hr', heq, hlt, hmin, hstrict⟩ :=
        findNearestIndexAux_better target rest 1 0 |c - target| hbetter
      have hres : findNearestIndex (c :: rest) target = r' + 1 := by
        rw [hstart, heq]; omega
      rw [hres]
      refine ⟨by simpa using Nat.succ_lt_succ hr', ?_, ?_⟩
      · intro k hk
        match k with
        | 0 => simpa using le_of_lt hlt
        | k + 1 =>
          simpa using hmin k (by simpa using Nat.lt_of_succ_lt_succ hk)
      · intro k hk
        match k with
        | 0 => simpa using hlt
        | k + 1 => simpa using hstrict k (Nat.lt_of_succ_lt_succ hk)
    · push_neg at hbetter
      have hres : findNearestIndex (c :: rest) target = 0 := by
        rw [hstart,
          findNearestIndexAux_no_better target rest 1 0 |c - target| hbetter]
      rw [hres]
      refine ⟨by simp, ?_, ?_⟩
      · intro k hk
        match k with
        | 0 => simp
        | k + 1 =>
          simpa using hbetter k (by simpa using Nat.lt_of_succ_lt_succ hk)
      · intro k hk; exact absurd hk (Nat.not_lt_zero k)

/-- Witness for C9: coordinates `[0, 10, 20, 30]` and target 17; the
returned index is 2 (value 20). -/
theorem findNearestIndex_correct_witness :
    (([0, 10, 20, 30] : List ℚ) ≠ []) ∧
    (findNearestIndex [0, 10, 20, 30] 17 < ([0, 10, 20, 30] : List ℚ).length ∧
     (∀ k, k < ([0, 10, 20, 30] : List ℚ).length →
       |([0, 10, 20, 30] : List ℚ).getD (findNearestIndex [0, 10, 20, 30] 17) 0 - 17|
         ≤ |([0, 10, 20, 30] : List ℚ).getD k 0 - 17|) ∧
     (∀ k, k < findNearestIndex [0, 10, 20, 30] 17 →
       |([0, 10, 20, 30] : List ℚ).getD (findNearestIndex [0, 10, 20, 30] 17) 0 - 17|
         < |([0, 10, 20, 30] : List ℚ).getD k 0 - 17|)) ∧
    findNearestIndex [0, 10, 20, 30] 17 = 2 :=
  ⟨by simp, findNearestIndex_correct [0, 10, 20, 30] 17 (by simp),
   by norm_num [findNearestIndex, findNearestIndexAux, abs]⟩

/-- Optional indexing commutes with `mapIdx`. -/
lemma get?_mapIdx {α β : Type} (l : List α) (f : ℕ → α → β) (i : ℕ) :
    (l.mapIdx f).get? i = (l.get? i).map (f i) := by
  by_cases h : i < l.length
  · rw [List.get?_eq_get h, List.get?_eq_get (by simpa [List.length_mapIdx] using h),
      List.get_mapIdx]
    rfl
  · rw [List.get?_eq_none.mpr (by simpa [List.length_mapIdx] using not_lt.mp h),
      List.get?_eq_none.mpr (not_lt.mp h)]
    rfl

/-- Cellwise description of `calculateDifference`: reading any cell of the
result is the guarded subtraction of the corresponding operand cells. -/
lemma gridCell_calculateDifference (o f : Grid) (i j : ℕ) :
    gridCell (calculateDifference o f) i j =
      match gridCell o i j, gridCell f i j with
      | some a, some b => some (a - b)
      | _, _ => none := by
  unfold calculateDifference gridCell
  rw [get?_mapIdx]
  cases ho : o.get? i with
  | none => rfl
  | some row =>
    simp only [Option.map_some', Option.some_bind]
    rw [get?_mapIdx]
    cases hr : row.get? j with
    | none => rfl
    | some cell =>
      simp only [Option.map_some', Option.some_bind]
      cases cell <;> rfl

/-- C6: elementwise difference grid. For equally-dimensioned grids the
difference has the same dimensions; each cell is `obs − fc` when both
operand cells hold numbers and the missing sentinel when either operand
is missing. (In the embedding `calculateDifference` is a function, so
identical inputs give identical outputs definitionally.) -/
theorem calculateDifference_spec (o f : Grid)
    (hlen : o.length = f.length)
    (hrow : ∀ i, i < o.length → (o.getD i []).length = (f.getD i []).length) :
    (calculateDifference o f).length = o.length ∧
    (∀ i, i < o.length →
      ((calculateDifference o f).getD i []).length = (o.getD i []).length) ∧
    (∀ i j a b, gridCell o i j = some a → gridCell f i j = some b →
      gridCell (calculateDifference o f) i j = some (a - b)) ∧
    (∀ i j, gridCell o i j = none ∨ gridCell f i j = none →
      gridCell (calculateDifference o f) i j = none) := by
  refine ⟨by simp [calculateDifference, List.length_mapIdx], ?_, ?_, ?_⟩
  · intro i hi
    have hrowi : o.get? i = some (o.get ⟨i, hi⟩) := List.get?_eq_get hi
    have hcd : (calculateDifference o f).get? i
        = some ((o.get ⟨i, hi⟩).mapIdx fun j cell =>
            match cell, gridCell f i j with
            | some a, some b => some (a - b)
            | _, _ => none) := by
      simp only [calculateDifference]
      rw [get?_mapIdx, hrowi]
      rfl
    rw [List.getD_eq_get?, List.getD_eq_get?, hcd, hrowi]
    simp [List.length_mapIdx]
  · intro i j a b ha hb
    rw [gridCell_calculateDifference, ha, hb]
  · intro i j h
    rw [gridCell_calculateDifference]
    rcases h with h | h
    · rw [h]
    · rw [h]
      cases gridCell o i j <;> rfl

/-- Witness for C6: the spec example, obs `[[30,null],[28,26]]` minus
forecast `[[29,20],[null,25]]` gives `[[1,null],[null,1]]`. -/
theorem calculateDifference_spec_witness :
    (([[some 30, none], [some 28, some 26]] : Grid).length
        = ([[some 29, some 20], [none, some 25]] : Grid).length ∧
     (∀ i, i < ([[some 30, none], [some 28, some 26]] : Grid).length →
       (([[some 30, none], [some 28, some 26]] : Grid).getD i []).length
         = (([[some 29, some 20], [none, some 25]] : Grid).getD i []).length)) ∧
    (∀ i j a b,
      gridCell [[some 30, none], [some 28, some 26]] i j = some a →
      gridCell [[some 29, some 20], [none, some 25]] i j = some b →
      gridCell (calculateDifference [[some 30, none], [some 28, some 26]]
        [[some 29, some 20], [none, some 25]]) i j = some (a - b)) ∧
    calculateDifference [[some 30, none], [some 28, some 26]]
      [[some 29, some 20], [none, some 25]] = [[some 1, none], [none, some 1]] :=
  ⟨⟨by simp, by decide⟩,
   (calculateDifference_spec [[some 30, none], [some 28, some 26]]
     [[some 29, some 20], [none, some 25]] (by simp) (by decide)).2.2.1,
   by norm_num [calculateDifference, gridCell, List.mapIdx, List.mapIdx.go]⟩

/-- Folding the Option-seeded minimum scan from a started accumulator is
the plain `min`-fold. -/
lemma listMin?_go (l : List ℚ) : ∀ a : ℚ,
    l.foldl (fun acc v => match acc with
      | none => some v
      | some m => some (min m v)) (some a) = some (l.foldl min a) := by
  induction l with
  | nil => intro a; rfl
  | cons b l ih => intro a; exact ih (min a b)

/-- Shape of `listMin?` on a nonempty list. -/
lemma listMin?_cons (c : ℚ) (rest : List ℚ) :
    listMin? (c :: rest) = some (rest.foldl min c) :=
  listMin?_go rest c

/-- Dual of `listMin?_go` for the maximum scan. -/
lemma listMax?_go (l : List ℚ) : ∀ a : ℚ,
    l.foldl (fun acc v => match acc with
      | none => some v
      | some m => some (max m v)) (some a) = some (l.foldl max a) := by
  induction l with
  | nil => intro a; rfl
  | cons b l ih => intro a; exact ih (max a b)

/-- Shape of `listMax?` on a nonempty list. -/
lemma listMax?_cons (c : ℚ) (rest : List ℚ) :
    listMax? (c :: rest) = some (rest.foldl max c) :=
  listMax?_go rest c

lemma foldl_min_le_init (l : List ℚ) : ∀ a : ℚ, l.foldl min a ≤ a := by
  induction l with
  | nil => intro a; exact le_refl a
  | cons b l ih => intro a; exact (ih (min a b)).trans (min_le_left a b)

lemma foldl_min_le_mem (l : List ℚ) : ∀ (a v : ℚ), v ∈ l → l.foldl min a ≤ v := by
  induction l with
  | nil => intro a v hv; exact absurd hv (List.not_mem_nil v)
  | cons b l ih =>
    intro a v hv
    rcases List.mem_cons.mp hv with rfl | hv
    · exact (foldl_min_le_init l (min a v)).trans (min_le_right a v)
    · exact ih (min a b) v hv

lemma foldl_min_mem (l : List ℚ) : ∀ a : ℚ, l.foldl min a = a ∨ l.foldl min a ∈ l := by
  induction l with
  | nil => intro a; exact Or.inl rfl
  | cons b l ih =>
    intro a
    rcases ih (min a b) with h | h
    · rcases min_choice a b with hab | hab
      · exact Or.inl (h.trans hab)
      · refine Or.inr ?_
        rw [List.foldl_cons, h, hab]
        exact List.mem_cons_self b l
    · exact Or.inr (List.mem_cons_of_mem b h)

lemma foldl_max_le_init (l : List ℚ) : ∀ a : ℚ, a ≤ l.foldl max a := by
  induction l with
  | nil => intro a; exact le_refl a
  | cons b l ih => intro a; exact (le_max_left a b).trans (ih (max a b))

lemma foldl_max_ge_mem (l : List ℚ) : ∀ (a v : ℚ), v ∈ l → v ≤ l.foldl max a := by
  induction l with
  | nil => intro a v hv; exact absurd hv (List.not_mem_nil v)
  | cons b l ih =>
    intro a v hv
    rcases List.mem_cons.mp hv with rfl | hv
    · exact (le_max_right a v).trans (foldl_max_le_init l (max a v))
    · exact ih (max a b) v hv

lemma foldl_max_mem (l : List ℚ) : ∀ a : ℚ, l.foldl max a = a ∨ l.foldl max a ∈ l := by
  induction l with
  | nil => intro a; exact Or.inl rfl
  | cons b l ih =>
    intro a
    rcases ih (max a b) with h | h
    · rcases max_choice a b with hab | hab
      · exact Or.inl (h.trans hab)
      · refine Or.inr ?_
        rw [List.foldl_cons, h, hab]
        exact List.mem_cons_self b l
    · exact Or.inr (List.mem_cons_of_mem b h)

/-- The `Infinity`-seeded minimum scan of a nonempty list returns the
least element of the list (an element, and a lower bound). -/
lemma listMin?_spec (l : List ℚ) (h : l ≠ []) :
    ∃ m, listMin? l = some m ∧ m ∈ l ∧ ∀ v ∈ l, m ≤ v := by
  match l, h with
  | c :: rest, _ =>
    refine ⟨rest.foldl min c, listMin?_cons c rest, ?_, ?_⟩
    · rcases foldl_min_mem rest c with h | h
      · rw [h]; exact List.mem_cons_self c rest
      · exact List.mem_cons_of_mem c h
    · intro v hv
      rcases List.mem_cons.mp hv with rfl | hv
      · exact foldl_min_le_init rest v
      · exact foldl_min_le_mem rest c v hv

/-- The `-Infinity`-seeded maximum scan of a nonempty list returns the
greatest element of the list. -/
lemma listMax?_spec (l : List ℚ) (h : l ≠ []) :
    ∃ M, listMax? l = some M ∧ M ∈ l ∧ ∀ v ∈ l, v ≤ M := by
  match l, h with
  | c :: rest, _ =>
    refine ⟨rest.foldl max c, listMax?_cons c rest, ?_, ?_⟩
    · rcases foldl_max_mem rest c with h | h
      · rw [h]; exact List.mem_cons_self c rest
      · exact List.mem_cons_of_mem c h
    · intro v hv
      rcases List.mem_cons.mp hv with rfl | hv
      · exact foldl_max_le_init rest v
      · exact foldl_max_ge_mem rest c v hv

/-- String facts letting simp resolve the data-type dispatch. -/
lemma str_difference_ne_obs : (("difference" : String) = "obs") = False :=
  eq_false (by decide)

lemma str_difference_ne_forecast : (("difference" : String) = "forecast") = False :=
  eq_false (by decide)

lemma str_forecast_ne_obs : (("forecast" : String) = "obs") = False :=
  eq_false (by decide)

/-- C4: difference range padding. With the difference layer selected and a
current difference grid holding at least one non-missing cell,
`getCurrentRange` returns the actual minimum and maximum over the
non-missing cells padded by 10% of the span and rounded outward
(`floor` the minimum, `ceil` the maximum). -/
theorem getCurrentRange_difference_padded (s : StoreState) (g : Grid)
    (hdt : s.dataType = "difference")
    (hg : getCurrentData s = some g)
    (hne : gridValues g ≠ []) :
    ∃ m M, m ∈ gridValues g ∧ M ∈ gridValues g ∧
      (∀ v ∈ gridValues g, m ≤ v) ∧ (∀ v ∈ gridValues g, v ≤ M) ∧
      getCurrentRange s =
        { min := ((⌊m - (M - m) * (1 / 10)⌋ : ℤ) : ℚ),
          max := ((⌈M + (M - m) * (1 / 10)⌉ : ℤ) : ℚ) } := by
  obtain ⟨m, hm, hmmem, hmle⟩ := listMin?_spec (gridValues g) hne
  obtain ⟨M, hM, hMmem, hMge⟩ := listMax?_spec (gridValues g) hne
  refine ⟨m, M, hmmem, hMmem, hmle, hMge, ?_⟩
  cases hmd : s.meteorologicalData with
  | none =>
    have : getCurrentData s = none := by simp [getCurrentData, hmd]
    rw [this] at hg
    exact absurd hg (by simp)
  | some md =>
    simp [getCurrentRange, hmd, hdt, hg, hm, hM, str_difference_ne_obs,
      str_difference_ne_forecast]

/-! ### Concrete store states used by the witnesses -/

/-- A tiny dataset whose difference grid on day 0 is `[[-2, 8]]`. -/
def dsDiff : Dataset where
  metadata := { lat := [0], lon := [0, 1], times := ["d0"],
                variableTable := [("tmax", { min := 0, max := 45 })] }
  obs := [("tmax", [[[some 0, some 8]]])]
  forecast := [("tmax", [[[some 2, some 0]]])]

/-- A store state viewing `dsDiff` through the difference layer. -/
def sDiff : StoreState :=
  { initialState with meteorologicalData := some dsDiff, dataType := "difference" }

/-- Witness for C4: actual min −2 and max 8 (span 10, pad 1) give the
padded range `{-3, 9}`. -/
theorem getCurrentRange_difference_padded_witness :
    (sDiff.dataType = "difference" ∧
     getCurrentData sDiff = some [[some (-2), some 8]] ∧
     gridValues [[some (-2), some 8]] ≠ []) ∧
    (∃ m M, m ∈ gridValues [[some (-2), some 8]] ∧
      M ∈ gridValues [[some (-2), some 8]] ∧
      (∀ v ∈ gridValues [[some (-2), some 8]], m ≤ v) ∧
      (∀ v ∈ gridValues [[some (-2), some 8]], v ≤ M) ∧
      getCurrentRange sDiff =
        { min := ((⌊m - (M - m) * (1 / 10)⌋ : ℤ) : ℚ),
          max := ((⌈M + (M - m) * (1 / 10)⌉ : ℤ) : ℚ) }) ∧
    getCurrentRange sDiff = { min := -3, max := 9 } :=
  ⟨⟨rfl,
    by norm_num [getCurrentData, sDiff, dsDiff, initialState, assocLookup,
      jsIndex, calculateDifference, gridCell, List.mapIdx, List.mapIdx.go,
      str_difference_ne_obs, str_difference_ne_forecast],
    by simp [gridValues]⟩,
   getCurrentRange_difference_padded sDiff [[some (-2), some 8]] rfl
     (by norm_num [getCurrentData, sDiff, dsDiff, initialState, assocLookup,
       jsIndex, calculateDifference, gridCell, List.mapIdx, List.mapIdx.go,
       str_difference_ne_obs, str_difference_ne_forecast])
     (by simp [gridValues]),
   by norm_num [getCurrentRange, getCurrentData, sDiff, dsDiff, initialState,
     assocLookup, jsIndex, calculateDifference, gridCell, List.mapIdx,
     List.mapIdx.go, gridValues, listMin?, listMax?, List.filterMap_cons,
     List.foldl_cons, List.foldl_nil,
     str_difference_ne_obs, str_difference_ne_forecast]⟩

/-- The store state after a failed load: no dataset, an error message. -/
def sError : StoreState := loadDataFailure "Failed to load data" initialState

/-- A loaded dataset whose static tmax bounds are exactly `{0, 1}`. -/
def dsUnit : Dataset where
  metadata := { lat := [0], lon := [0], times := [],
                variableTable := [("tmax", { min := 0, max := 1 })] }
  obs := [("tmax", [])]
  forecast := [("tmax", [])]

/-- A store state holding `dsUnit`. -/
def sUnit : StoreState :=
  { initialState with meteorologicalData := some dsUnit, isLoading := false }

/-- C5 counterexample: with the dataset absent after a load failure,
`getCurrentRange` does not return a "none": it returns the plain range
`{min: 0, max: 1}` — the same value it returns for a genuinely loaded
dataset whose static bounds are 0 and 1 — so the absent-dataset result is
an ordinary value, indistinguishable from a real range. -/
theorem getCurrentRange_absent_is_value :
    sError.meteorologicalData = none ∧
    sError.error = some "Failed to load data" ∧
    getCurrentRange sError = { min := 0, max := 1 } ∧
    getCurrentRange sUnit = { min := 0, max := 1 } := by
  refine ⟨rfl, rfl, by simp [getCurrentRange, sError, loadDataFailure, initialState], ?_⟩
  simp [getCurrentRange, sUnit, initialState, dsUnit, assocLookup]

/-- C5 (amended): when the dataset is absent, `getCurrentData` and
`getTimeSeriesData` return none and `getCurrentRange` returns the fixed
fallback range `{min: 0, max: 1}` (a value, not a none); none of the
three throws (they are total functions of the state). -/
theorem derived_views_absent_dataset (s : StoreState)
    (h : s.meteorologicalData = none) :
    getCurrentData s = none ∧ getTimeSeriesData s = none ∧
    getCurrentRange s = { min := 0, max := 1 } := by
  refine ⟨by simp [getCurrentData, h], ?_, by simp [getCurrentRange, h]⟩
  cases hp : s.selectedPoint <;> simp [getTimeSeriesData, h, hp]

/-- Witness for C5 (amended): the error state left by a failed load. -/
theorem derived_views_absent_dataset_witness :
    sError.meteorologicalData = none ∧
    (getCurrentData sError = none ∧ getTimeSeriesData sError = none ∧
     getCurrentRange sError = { min := 0, max := 1 }) :=
  ⟨rfl, derived_views_absent_dataset sError rfl⟩

/-- Optional indexing of a function mapped over `List.range`. -/
lemma get?_map_range {β : Type} (g : ℕ → β) (T k : ℕ) (hk : k < T) :
    ((List.range T).map g).get? k = some (g k) := by
  rw [List.get?_map, List.get?_range hk]
  rfl

/-- C7: time-series extraction. With a selected point and a dataset
holding the selected variable in both sources, `getTimeSeriesData`
returns series of length `T = metadata.times.length`; entry `k` of the
obs (resp. forecast) series is exactly the stored scalar at day `k`
(missing kept in place as none, never compacted), and the difference
entry at day `k` is `obs − forecast` when both scalars are present and
none when either is missing. -/
theorem getTimeSeriesData_spec (s : StoreState) (md : Dataset)
    (pt : SelectedPoint) (obsVar fcVar : List Grid)
    (hpt : s.selectedPoint = some pt)
    (hmd : s.meteorologicalData = some md)
    (ho : assocLookup s.variableName md.obs = some obsVar)
    (hf : assocLookup s.variableName md.forecast = some fcVar) :
    ∃ ts, getTimeSeriesData s = some ts ∧
      ts.days = md.metadata.times ∧
      ts.obs.length = md.metadata.times.length ∧
      ts.forecast.length = md.metadata.times.length ∧
      ts.difference.length = md.metadata.times.length ∧
      (∀ k, k < md.metadata.times.length →
        ts.obs.get? k = some (dayCell obsVar k pt.latIdx pt.lonIdx) ∧
        ts.forecast.get? k = some (dayCell fcVar k pt.latIdx pt.lonIdx) ∧
        (∀ a b, dayCell obsVar k pt.latIdx pt.lonIdx = some a →
          dayCell fcVar k pt.latIdx pt.lonIdx = some b →
          ts.difference.get? k = some (some (a - b))) ∧
        ((dayCell obsVar k pt.latIdx pt.lonIdx = none ∨
          dayCell fcVar k pt.latIdx pt.lonIdx = none) →
          ts.difference.get? k = some none)) := by
  simp only [getTimeSeriesData, hpt, hmd, ho, hf]
  refine ⟨_, rfl, rfl, by simp, by simp, by simp, ?_⟩
  intro k hk
  refine ⟨get?_map_range _ _ k hk, get?_map_range _ _ k hk, ?_, ?_⟩
  · intro a b ha hb
    rw [get?_map_range _ _ k hk, ha, hb]
  · intro h
    rw [get?_map_range _ _ k hk]
    rcases h with h | h
    · rw [h]
    · rw [h]
      cases dayCell obsVar k pt.latIdx pt.lonIdx <;> rfl

/-- A 1×1 dataset over three days realizing the spec example
obs `[10, null, 12]`, forecast `[8, 9, null]` at the only grid point. -/
def dsSeries : Dataset where
  metadata := { lat := [0], lon := [0], times := ["d0", "d1", "d2"],
                variableTable := [("tmax", { min := 0, max := 45 })] }
  obs := [("tmax", [[[some 10]], [[none]], [[some 12]]])]
  forecast := [("tmax", [[[some 8]], [[some 9]], [[none]]])]

/-- A store state with `dsSeries` loaded and the only point selected. -/
def sSeries : StoreState :=
  { initialState with
      meteorologicalData := some dsSeries
      isLoading := false
      selectedPoint := some { lat := 0, lon := 0, latIdx := 0, lonIdx := 0 } }

/-- Witness for C7: on the concrete dataset the difference series is
`[2, null, null]` — day 2 is null because the forecast is null even
though the obs value is present. -/
theorem getTimeSeriesData_spec_witness :
    (sSeries.selectedPoint = some { lat := 0, lon := 0, latIdx := 0, lonIdx := 0 } ∧
     sSeries.meteorologicalData = some dsSeries ∧
     assocLookup sSeries.variableName dsSeries.obs
       = some [[[some 10]], [[none]], [[some 12]]] ∧
     assocLookup sSeries.variableName dsSeries.forecast
       = some [[[some 8]], [[some 9]], [[none]]]) ∧
    (∃ ts, getTimeSeriesData sSeries = some ts ∧
      ts.days = dsSeries.metadata.times ∧
      ts.obs.length = dsSeries.metadata.times.length ∧
      ts.forecast.length = dsSeries.metadata.times.length ∧
      ts.difference.length = dsSeries.metadata.times.length ∧
      (∀ k, k < dsSeries.metadata.times.length →
        ts.obs.get? k = some (dayCell [[[some 10]], [[none]], [[some 12]]] k 0 0) ∧
        ts.forecast.get? k = some (dayCell [[[some 8]], [[some 9]], [[none]]] k 0 0) ∧
        (∀ a b, dayCell [[[some 10]], [[none]], [[some 12]]] k 0 0 = some a →
          dayCell [[[some 8]], [[some 9]], [[none]]] k 0 0 = some b →
          ts.difference.get? k = some (some (a - b))) ∧
        ((dayCell [[[some 10]], [[none]], [[some 12]]] k 0 0 = none ∨
          dayCell [[[some 8]], [[some 9]], [[none]]] k 0 0 = none) →
          ts.difference.get? k = some none))) ∧
    Option.map TimeSeries.difference (getTimeSeriesData sSeries)
      = some [some 2, none, none] :=
  ⟨⟨rfl, rfl, rfl, rfl⟩,
   getTimeSeriesData_spec sSeries dsSeries
     { lat := 0, lon := 0, latIdx := 0, lonIdx := 0 }
     [[[some 10]], [[none]], [[some 12]]] [[[some 8]], [[some 9]], [[none]]]
     rfl rfl rfl rfl,
   by norm_num [getTimeSeriesData, sSeries, dsSeries, initialState,
     assocLookup, dayCell, List.range_succ]⟩

/-- C8: missing-grid recovery in the current-grid selector. With a loaded
dataset, if either the obs grid or the forecast grid for the selected
variable and day is absent, `getCurrentData` returns none (for every data
type, including obs and forecast when only the other grid is missing);
when both are present it returns the obs grid for "obs", the forecast
grid for "forecast", and their elementwise difference for "difference". -/
theorem getCurrentData_missing_grid (s : StoreState) (md : Dataset)
    (hmd : s.meteorologicalData = some md) :
    ((((assocLookup s.variableName md.obs).bind fun v => jsIndex v s.day) = none ∨
      ((assocLookup s.variableName md.forecast).bind fun v => jsIndex v s.day) = none) →
      getCurrentData s = none) ∧
    (∀ o f,
      ((assocLookup s.variableName md.obs).bind fun v => jsIndex v s.day) = some o →
      ((assocLookup s.variableName md.forecast).bind fun v => jsIndex v s.day) = some f →
      (s.dataType = "obs" → getCurrentData s = some o) ∧
      (s.dataType = "forecast" → getCurrentData s = some f) ∧
      (s.dataType = "difference" → getCurrentData s = some (calculateDifference o f))) := by
  constructor
  · rintro (h | h)
    · simp [getCurrentData, hmd, h]
    · cases hobs : (assocLookup s.variableName md.obs).bind fun v => jsIndex v s.day <;>
        simp [getCurrentData, hmd, h, hobs]
  · intro o f ho hf
    refine ⟨?_, ?_, ?_⟩ <;> intro hdt <;>
      simp [getCurrentData, hmd, ho, hf, hdt, str_forecast_ne_obs,
        str_difference_ne_obs, str_difference_ne_forecast]

/-- A dataset holding a day-0 obs grid for tmax but an empty forecast
day list, so the forecast grid for day 0 is absent. -/
def dsMissing : Dataset where
  metadata := { lat := [0], lon := [0], times := ["d0"],
                variableTable := [("tmax", { min := 0, max := 45 })] }
  obs := [("tmax", [[[some 10]]])]
  forecast := [("tmax", [])]

/-- A store state with `dsMissing` loaded, viewing obs. -/
def sMissing : StoreState :=
  { initialState with meteorologicalData := some dsMissing, isLoading := false }

/-- Witness for C8: the obs grid exists but the forecast grid is absent,
and `getCurrentData` returns none even though the view is "obs". -/
theorem getCurrentData_missing_grid_witness :
    sMissing.meteorologicalData = some dsMissing ∧
    sMissing.dataType = "obs" ∧
    ((assocLookup sMissing.variableName dsMissing.forecast).bind
      fun v => jsIndex v sMissing.day) = none ∧
    getCurrentData sMissing = none :=
  ⟨rfl, rfl, rfl,
   (getCurrentData_missing_grid sMissing dsMissing rfl).1 (Or.inr rfl)⟩

/-- Selection equality between two store states: the four user-selection
fields agree. -/
def SelectionEq (s t : StoreState) : Prop :=
  s.dataType = t.dataType ∧ s.variableName = t.variableName ∧
  s.day = t.day ∧ s.selectedPoint = t.selectedPoint

/-- Data-side equality between two store states: dataset, boundary,
loading flag and error agree. -/
def DataStateEq (s t : StoreState) : Prop :=
  s.meteorologicalData = t.meteorologicalData ∧
  s.australiaBoundary = t.australiaBoundary ∧
  s.isLoading = t.isLoading ∧ s.error = t.error

/-- C10: each selection mutator replaces exactly its one Selection field
with the supplied argument verbatim (no validation or clamping: the
argument types admit every string, every integer day and every point) and
leaves every other store field unchanged; the three `loadData` state
transitions — the only other `set` calls in the store — leave the whole
Selection untouched. -/
theorem selection_mutators_frame (s : StoreState) (v w : String) (d : Int)
    (p : Option SelectedPoint) (ds : Dataset) (b : Boundary) (msg : String) :
    ((setDataType v s).dataType = v ∧
     (setDataType v s).variableName = s.variableName ∧
     (setDataType v s).day = s.day ∧
     (setDataType v s).selectedPoint = s.selectedPoint ∧
     DataStateEq (setDataType v s) s) ∧
    ((setVariable w s).variableName = w ∧
     (setVariable w s).dataType = s.dataType ∧
     (setVariable w s).day = s.day ∧
     (setVariable w s).selectedPoint = s.selectedPoint ∧
     DataStateEq (setVariable w s) s) ∧
    ((setDay d s).day = d ∧
     (setDay d s).dataType = s.dataType ∧
     (setDay d s).variableName = s.variableName ∧
     (setDay d s).selectedPoint = s.selectedPoint ∧
     DataStateEq (setDay d s) s) ∧
    ((setSelectedPoint p s).selectedPoint = p ∧
     (setSelectedPoint p s).dataType = s.dataType ∧
     (setSelectedPoint p s).variableName = s.variableName ∧
     (setSelectedPoint p s).day = s.day ∧
     DataStateEq (setSelectedPoint p s) s) ∧
    ((clearSelectedPoint s).selectedPoint = none ∧
     (clearSelectedPoint s).dataType = s.dataType ∧
     (clearSelectedPoint s).variableName = s.variableName ∧
     (clearSelectedPoint s).day = s.day ∧
     DataStateEq (clearSelectedPoint s) s) ∧
    (SelectionEq (loadDataStart s) s ∧
     SelectionEq (loadDataSuccess ds b s) s ∧
     SelectionEq (loadDataFailure msg s) s) := by
  simp [SelectionEq, DataStateEq, setDataType, setVariable, setDay,
    setSelectedPoint, clearSelectedPoint, loadDataStart, loadDataSuccess,
    loadDataFailure]

end Dashboard
